import Mathlib

/-!
Shallow embedding of `src/bread.c` (the `bread` single-line terminal editor).

The gap buffer `struct buffer { char *start, *gap, *post, *end; int relpos; }`
is modelled with memory as a function from addresses (offsets from `start`,
so `start = 0`) to byte values, together with the three pointer offsets
`gap`, `post` and `cap` (`cap` is `end - start`, the capacity) and the
pending offset `relpos`.  Byte cells never written by the program keep
whatever value the ambient memory function assigns them, which models the
indeterminate content of `malloc`/`realloc` storage.
-/

set_option maxRecDepth 4000

/-- The gap buffer of `src/bread.c` lines 28-34.  `mem i` is the byte at
`start + i`; `cap` is `end - start`; `gap` and `post` are the pointer
offsets `gap - start` and `post - start`. -/
structure Buffer where
  mem : Nat → Nat
  cap : Nat
  gap : Nat
  post : Nat
  relpos : Int

/-- Constant `BREAD_INITIAL_SIZE` from `src/bread.h`. -/
def BREAD_INITIAL_SIZE : Nat := 64

/-- Function `buffer_init` (lines 36-50), in the case where `malloc` succeeds:
`gap = start`, `post = end = start + init_size`, `relpos = 0`.  The fresh
allocation's content is the arbitrary function `fresh`. -/
def buffer_init (fresh : Nat → Nat) (init_size : Nat) : Buffer :=
  { mem := fresh, cap := init_size, gap := 0, post := init_size, relpos := 0 }

/-- Function `buffer_forwards` (lines 52-58): `if (b->post + b->relpos < b->end) ++b->relpos;` -/
def buffer_forwards (b : Buffer) : Buffer :=
  if (b.post : Int) + b.relpos < (b.cap : Int) then { b with relpos := b.relpos + 1 } else b

/-- Function `buffer_backwards` (lines 60-66): `if (b->gap + b->relpos > b->start) --b->relpos;` -/
def buffer_backwards (b : Buffer) : Buffer :=
  if (0 : Int) < (b.gap : Int) + b.relpos then { b with relpos := b.relpos - 1 } else b

/-- Function `buffer_move_gap` (lines 68-86).  For `relpos < 0` the C code does
`gap += relpos; post += relpos; memmove(post, gap, -relpos)` (with the
updated pointers), copying the last `-relpos` bytes of the pre-run to the
front of the new post-run; for `relpos > 0` it does
`memmove(gap, post, relpos); gap += relpos; post += relpos`, copying the
first `relpos` bytes of the post-run onto the end of the pre-run.
`memmove` reads all source bytes from the old memory state, which the
functional update below reproduces. -/
def buffer_move_gap (b : Buffer) : Buffer :=
  if b.relpos = 0 then b
  else if b.relpos < 0 then
    let k : Nat := (-b.relpos).toNat
    let gap2 : Nat := b.gap - k
    let post2 : Nat := b.post - k
    { mem := fun i => if post2 ≤ i ∧ i < post2 + k then b.mem (gap2 + (i - post2)) else b.mem i,
      cap := b.cap, gap := gap2, post := post2, relpos := 0 }
  else
    let k : Nat := b.relpos.toNat
    { mem := fun i => if b.gap ≤ i ∧ i < b.gap + k then b.mem (b.post + (i - b.gap)) else b.mem i,
      cap := b.cap, gap := b.gap + k, post := b.post + k, relpos := 0 }

/-- Function `buffer_insertch` (lines 88-110).  `allocOk` is the outcome of the
`realloc` call, should one be needed.  On growth the C code keeps the old
bytes in place (`realloc`), sets `gap = newbuf + (gap - start)` and sets
`post = newbuf + newsize + (end - post)` (source line 102, using the old
`end` and `post`), then in all cases performs `*b->gap++ = ch`.  The pair
returned is (the C `bool` result, the buffer after the call). -/
def buffer_insertch (allocOk : Bool) (b0 : Buffer) (ch : Nat) : Bool × Buffer :=
  let b := buffer_move_gap b0
  if b.gap = b.post then
    if allocOk then
      let newsize := b.cap * 2
      let gap2 := b.gap
      let post2 := newsize + (b.cap - b.post)
      (true, { mem := fun i => if i = gap2 then ch else b.mem i,
               cap := newsize, gap := gap2 + 1, post := post2, relpos := b.relpos })
    else (false, b)
  else
    (true, { b with mem := fun i => if i = b.gap then ch else b.mem i, gap := b.gap + 1 })

/-- Function `buffer_delete_forwards` (lines 112-120). -/
def buffer_delete_forwards (b0 : Buffer) : Buffer :=
  let b := buffer_move_gap b0
  if b.post < b.cap then { b with post := b.post + 1 } else b

/-- Function `buffer_delete_backwards` (lines 122-130). -/
def buffer_delete_backwards (b0 : Buffer) : Buffer :=
  let b := buffer_move_gap b0
  if 0 < b.gap then { b with gap := b.gap - 1 } else b

/-- Sentinel `KEY_NOKEY` of `enum key` (lines 19-26): out-of-band values above any byte. -/
def KEY_NOKEY : Nat := 257

/-- Sentinel `KEY_UP` from `enum key`. -/
def KEY_UP : Nat := 258

/-- Sentinel `KEY_DOWN` from `enum key`. -/
def KEY_DOWN : Nat := 259

/-- Sentinel `KEY_RIGHT` from `enum key`. -/
def KEY_RIGHT : Nat := 260

/-- Sentinel `KEY_LEFT` from `enum key`. -/
def KEY_LEFT : Nat := 261

/-- Function `getkey` (lines 160-190).  The single `read` of up to 3 bytes is
modelled by its result: `none` for a read error (`n < 0`), `some bytes`
for a successful read of `bytes.length` bytes (`bytes.length ≤ 3`).
`junk` is the indeterminate initial content of the local array `char c[3]`;
cell `i` of `c` after the read holds `bytes[i]` when `i < n` and the
unwritten `junk i` otherwise.  Byte values are in `[0, 256)`; the sentinel
keys are the enum values `≥ 257`. -/
def getkey (junk : Nat → Nat) (r : Option (List Nat)) : Nat :=
  match r with
  | none => KEY_NOKEY
  | some bytes =>
    let c : Nat → Nat := fun i => bytes.getD i (junk i)
    if bytes.length < 3 then c 0
    else if c 0 = 27 ∧ c 1 = 91 then
      if c 2 = 65 then KEY_UP
      else if c 2 = 66 then KEY_DOWN
      else if c 2 = 67 then KEY_RIGHT
      else if c 2 = 68 then KEY_LEFT
      else KEY_NOKEY
    else c 0

/-- The `switch (k)` body of the edit loop (lines 231-267) for a non-newline
key `k`.  `CTRL_KEY(x) = x - 0x60`, so the labels are: Ctrl-B `2`, Ctrl-F
`6`, Ctrl-A `1`, Ctrl-E `5`, Ctrl-D `4`, Ctrl-U `21`, Ctrl-H `8`, DEL `127`,
and the arrow sentinels.  Ctrl-A executes
`buffer.relpos = buffer.start - buffer.gap - buffer.relpos;` (line 245),
Ctrl-E executes `buffer.relpos = buffer.end - buffer.post;` (line 249), and
Ctrl-U executes `buffer.gap = buffer.start; buffer.post = buffer.end;`
(lines 255-256), leaving `relpos` untouched.  The `Bool` is `false` exactly
when the default branch's `buffer_insertch` failed. -/
def apply_key (growthOk : Bool) (b : Buffer) (k : Nat) : Bool × Buffer :=
  if k = KEY_NOKEY then (true, b)
  else if k = 2 ∨ k = KEY_LEFT then (true, buffer_backwards b)
  else if k = 6 ∨ k = KEY_RIGHT then (true, buffer_forwards b)
  else if k = KEY_UP ∨ k = 1 then (true, { b with relpos := 0 - (b.gap : Int) - b.relpos })
  else if k = KEY_DOWN ∨ k = 5 then (true, { b with relpos := (b.cap : Int) - (b.post : Int) })
  else if k = 4 then (true, buffer_delete_forwards b)
  else if k = 21 then (true, { b with gap := 0, post := b.cap })
  else if k = 8 ∨ k = 127 then (true, buffer_delete_backwards b)
  else buffer_insertch growthOk b k

/-- The pre-run: the bytes `start .. gap`, i.e. `(int)(buffer.gap - buffer.start)`
bytes from `buffer.start` (cf. lines 274-275 and the final `memcpy` line 295). -/
def buffer_pre (b : Buffer) : List Nat :=
  (List.range b.gap).map b.mem

/-- The post-run: the bytes `post .. end` (cf. lines 269 and 296).  When
`post > cap` (which the growth path can produce) this is empty, whereas the
C `size_t` subtraction `end - post` underflows. -/
def buffer_postrun (b : Buffer) : List Nat :=
  (List.range (b.cap - b.post)).map (fun i => b.mem (b.post + i))

/-- The line held by the buffer: pre-run followed by post-run, as assembled
by `bread_line` lines 285-298. -/
def buffer_contents (b : Buffer) : List Nat :=
  buffer_pre b ++ buffer_postrun b

/-- The effective (resolved) cursor offset: physical gap position plus
pending offset, `(gap - start) + relpos`. -/
def buffer_cursor (b : Buffer) : Int :=
  (b.gap : Int) + b.relpos

/-- Length of the stored text, `len(pre) + len(post)`. -/
def buffer_textlen (b : Buffer) : Nat :=
  b.gap + (b.cap - b.post)

/-- Well-formedness of a buffer state: the pointers are ordered
`start ≤ gap ≤ post ≤ end` and the pending offset keeps the effective
cursor inside the text (the source comments `relpos` is
"assumed to be vaild at all times"). -/
def buffer_valid (b : Buffer) : Prop :=
  b.gap ≤ b.post ∧ b.post ≤ b.cap ∧
    -(b.gap : Int) ≤ b.relpos ∧ b.relpos ≤ (b.cap : Int) - (b.post : Int)

instance (b : Buffer) : Decidable (buffer_valid b) :=
  inferInstanceAs (Decidable (_ ∧ _ ∧ _ ∧ _))

/-- The outcome of one `bread_line` call: a returned line, a `NULL` return,
or a call that would block forever on `read` (input exhausted with no
newline). -/
inductive SessionOutcome where
  | line (l : List Nat)
  | fail
  | blocked
deriving DecidableEq

/-- The `for (;;)` edit loop of `bread_line` (lines 223-283), driven by the
list of `read` results.  Returns `none` when the input trace is exhausted
without a newline (the C loop would block in `read`), `some none` when
`buffer_insertch` failed (the `return NULL` at line 265), and
`some (some b)` on submit (`k == '\n'`, line 226). -/
def edit_loop (junk : Nat → Nat) (growthOk : Bool) :
    Buffer → List (Option (List Nat)) → Option (Option Buffer)
  | _, [] => none
  | b, r :: rs =>
    let k := getkey junk r
    if k = 10 then some (some b)
    else
      let s := apply_key growthOk b k
      if s.1 then edit_loop junk growthOk s.2 rs else some none

/-- The environment of one `bread_line` call: outcomes of the fallible
system calls, the indeterminate memory contents, and the `read` results. -/
structure Oracle where
  /-- Whether `setup_terminal` succeeded (both `tcgetattr` and the raw `tcsetattr`). -/
  setupOk : Bool
  /-- Whether the `malloc` inside `buffer_init` succeeded. -/
  initAllocOk : Bool
  /-- Whether any `realloc` inside `buffer_insertch` succeeds. -/
  growthOk : Bool
  /-- Whether the final `malloc(size + 1)` for the result line succeeded. -/
  lineAllocOk : Bool
  /-- Whether the `tcsetattr` inside `restore_terminal` succeeds. -/
  restoreOk : Bool
  /-- Indeterminate content of the local array `char c[3]` in `getkey`. -/
  junk : Nat → Nat
  /-- Indeterminate content of the initial `malloc` allocation. -/
  fresh : Nat → Nat
  /-- Successive results of `read(STDIN_FILENO, c, 3)`. -/
  reads : List (Option (List Nat))

/-- Function `bread_line` (lines 192-303), abstracted over the prompt (which no
claim concerns).  The second component counts the calls to
`restore_terminal`: the source calls it only at line 300, on the path that
returns the line, and discards its result; the paths returning `NULL` at
lines 215, 220, 265 and 292 never call it. -/
def bread_line (o : Oracle) : SessionOutcome × Nat :=
  if ¬ o.setupOk then (.fail, 0)
  else if ¬ o.initAllocOk then (.fail, 0)
  else
    match edit_loop o.junk o.growthOk (buffer_init o.fresh BREAD_INITIAL_SIZE) o.reads with
    | none => (.blocked, 0)
    | some none => (.fail, 0)
    | some (some b) =>
      if ¬ o.lineAllocOk then (.fail, 0)
      else (.line (buffer_contents b), 1)

/-- The logical (non-submit) edit operations of the loop's `switch`. -/
inductive EditOp where
  | ins (ch : Nat)
  | left
  | right
  | toStart
  | toEnd
  | delFwd
  | delBwd
  | delAll
deriving DecidableEq

/-- The action of one logical edit on the buffer, exactly as the
corresponding `case` of the loop's `switch` performs it (growth `realloc`
assumed to succeed). -/
def apply_edit (b : Buffer) : EditOp → Buffer
  | .ins ch => (buffer_insertch true b ch).2
  | .left => buffer_backwards b
  | .right => buffer_forwards b
  | .toStart => { b with relpos := 0 - (b.gap : Int) - b.relpos }
  | .toEnd => { b with relpos := (b.cap : Int) - (b.post : Int) }
  | .delFwd => buffer_delete_forwards b
  | .delBwd => buffer_delete_backwards b
  | .delAll => { b with gap := 0, post := b.cap }

/-- Folding a sequence of logical edits over a buffer. -/
def run_edits (b : Buffer) (ops : List EditOp) : Buffer :=
  ops.foldl apply_edit b

/-- Modelled from the spec: the "plain string model of a line with a
cursor" that section 8's concatenation invariant compares the gap buffer
against (the spec side of the refinement; it is not part of the C source). -/
structure SpecLine where
  line : List Nat
  cursor : Nat
deriving DecidableEq

/-- Modelled from the spec: the logical edits on the plain string model
(insert at the cursor; clamped single-step moves; absolute moves to the
ends; boundary-clamped deletes; delete-all empties the line). -/
def spec_apply (s : SpecLine) : EditOp → SpecLine
  | .ins ch => { line := s.line.take s.cursor ++ ch :: s.line.drop s.cursor, cursor := s.cursor + 1 }
  | .left => { s with cursor := s.cursor - 1 }
  | .right => { s with cursor := min (s.cursor + 1) s.line.length }
  | .toStart => { s with cursor := 0 }
  | .toEnd => { s with cursor := s.line.length }
  | .delFwd => { s with line := s.line.take s.cursor ++ s.line.drop (s.cursor + 1) }
  | .delBwd =>
    if s.cursor = 0 then s
    else { line := s.line.take (s.cursor - 1) ++ s.line.drop s.cursor, cursor := s.cursor - 1 }
  | .delAll => { line := [], cursor := 0 }

/-- Folding a sequence of logical edits over the plain string model. -/
def spec_run (s : SpecLine) (ops : List EditOp) : SpecLine :=
  ops.foldl spec_apply s

/-- A fixed choice of indeterminate memory content, for concrete runs. -/
def junk0 : Nat → Nat := fun _ => 0

/-- Edit sequence for the concatenation invariant: type `a`, `b`, press
Ctrl-B (move left), Ctrl-A (move to start), type `x`. -/
def ops_c1 : List EditOp := [.ins 97, .ins 98, .left, .toStart, .ins 120]

/-- Session environment in which raw mode is acquired but the `malloc`
inside `buffer_init` fails. -/
def oracle_c2 : Oracle :=
  { setupOk := true, initAllocOk := false, growthOk := true, lineAllocOk := true,
    restoreOk := true, junk := junk0, fresh := junk0, reads := [] }

/-- Edit sequence: type `a`, `b`, press Ctrl-B, then Ctrl-A. -/
def ops_c3 : List EditOp := [.ins 97, .ins 98, .left, .toStart]

/-- Edit sequence: type `a`, `b`, press Ctrl-B, then Ctrl-U (delete-all). -/
def ops_c4 : List EditOp := [.ins 97, .ins 98, .left, .delAll]

/-- Edit sequence that forces growth with a non-empty post-run: on a
capacity-2 buffer, type `a`, `b` (buffer now full), press Ctrl-B, type `x`. -/
def ops_c5 : List EditOp := [.ins 97, .ins 98, .left, .ins 120]

/-- The buffer reached by `ops_c5` from an empty capacity-2 buffer, with
every `realloc` succeeding. -/
def buf_c5 : Buffer := run_edits (buffer_init junk0 2) ops_c5

/-- A full buffer (capacity 1 holding one byte, cursor at the end):
inserting into it must grow, so `buffer_insertch` with a failing `realloc`
fails on it. -/
def buf_c6 : Buffer := { mem := junk0, cap := 1, gap := 1, post := 1, relpos := 0 }

/-- Session environment whose input is a 1-byte read of the lone `ESC`
byte (an incomplete escape sequence) followed by a newline. -/
def oracle_c7 : Oracle :=
  { setupOk := true, initAllocOk := true, growthOk := true, lineAllocOk := true,
    restoreOk := true, junk := junk0, fresh := junk0, reads := [some [27], some [10]] }

/-- Session environment typing `h`, `i`, newline, in which the final
`tcsetattr` of `restore_terminal` fails. -/
def oracle_c8 : Oracle :=
  { setupOk := true, initAllocOk := true, growthOk := true, lineAllocOk := true,
    restoreOk := false, junk := junk0, fresh := junk0,
    reads := [some [104], some [105], some [10]] }

/-- Helper: `buffer_move_gap` always leaves `relpos = 0` (lines 71-73 and 85). -/
theorem move_gap_relpos (b : Buffer) : (buffer_move_gap b).relpos = 0 := by
  unfold buffer_move_gap
  split_ifs with h1 h2
  · exact h1
  · rfl
  · rfl

/-- Helper: with no pending offset, `buffer_move_gap` returns at once
(lines 71-73). -/
theorem move_gap_eq_of_relpos_zero (b : Buffer) (h : b.relpos = 0) :
    buffer_move_gap b = b := by
  unfold buffer_move_gap
  simp [h]

/-- Helper: the `memmove` of the `relpos < 0` branch of `buffer_move_gap`
rearranges the two runs without changing their concatenation.  Here
`g2 + k` and `p2 + k` are the old `gap` and `post` offsets and `k` the
move distance. -/
theorem memmove_left_contents (mem : Nat → Nat) (cap g2 p2 k : Nat)
    (hgp : g2 ≤ p2) (hpc : p2 + k ≤ cap) :
    (List.range g2).map (fun i => if p2 ≤ i ∧ i < p2 + k then mem (g2 + (i - p2)) else mem i)
      ++ (List.range (cap - p2)).map
          (fun i => if p2 ≤ p2 + i ∧ p2 + i < p2 + k then mem (g2 + (p2 + i - p2)) else mem (p2 + i))
    = (List.range (g2 + k)).map mem
      ++ (List.range (cap - (p2 + k))).map (fun i => mem (p2 + k + i)) := by
  have hsplit : cap - p2 = k + (cap - (p2 + k)) := by omega
  rw [hsplit, List.range_add, List.map_append, List.map_map, List.range_add, List.map_append,
    List.map_map, List.append_assoc]
  congr 1
  · apply List.map_congr_left
    intro i hi
    rw [List.mem_range] at hi
    have h5 : ¬(p2 ≤ i) := by omega
    simp [h5]
  congr 1
  · apply List.map_congr_left
    intro i hi
    rw [List.mem_range] at hi
    have h5 : p2 ≤ p2 + i ∧ p2 + i < p2 + k := by omega
    simp [h5, Function.comp]
  · apply List.map_congr_left
    intro j hj
    rw [List.mem_range] at hj
    have h5 : ¬(p2 + (k + j) < p2 + k) := by omega
    simp only [Function.comp]
    rw [if_neg (by omega)]
    rw [Nat.add_assoc]

/-- Helper: the `memmove` of the `relpos > 0` branch of `buffer_move_gap`
rearranges the two runs without changing their concatenation.  Here `g`
and `p` are the old `gap` and `post` offsets and `k` the move distance. -/
theorem memmove_right_contents (mem : Nat → Nat) (cap g p k : Nat)
    (hgp : g ≤ p) (hpc : p + k ≤ cap) :
    (List.range (g + k)).map (fun i => if g ≤ i ∧ i < g + k then mem (p + (i - g)) else mem i)
      ++ (List.range (cap - (p + k))).map
          (fun i => if g ≤ p + k + i ∧ p + k + i < g + k then mem (p + (p + k + i - g))
            else mem (p + k + i))
    = (List.range g).map mem
      ++ (List.range (cap - p)).map (fun i => mem (p + i)) := by
  have hsplit : cap - p = k + (cap - (p + k)) := by omega
  rw [hsplit, List.range_add, List.map_append, List.map_map, List.range_add, List.map_append,
    List.map_map, List.append_assoc]
  congr 1
  · apply List.map_congr_left
    intro i hi
    rw [List.mem_range] at hi
    have h5 : ¬(g ≤ i ∧ i < g + k) := by omega
    simp [h5]
  congr 1
  · apply List.map_congr_left
    intro i hi
    rw [List.mem_range] at hi
    simp only [Function.comp]
    rw [if_pos (by omega)]
    congr 1
    omega
  · apply List.map_congr_left
    intro j hj
    rw [List.mem_range] at hj
    simp only [Function.comp]
    rw [if_neg (by omega)]
    congr 1
    omega

/-- Helper: on a valid buffer, `buffer_move_gap` preserves the stored line,
the effective cursor, the capacity and validity, and lands the gap exactly
at the cursor. -/
theorem move_gap_spec (b : Buffer) (hv : buffer_valid b) :
    buffer_contents (buffer_move_gap b) = buffer_contents b ∧
    buffer_cursor (buffer_move_gap b) = buffer_cursor b ∧
    (buffer_move_gap b).gap = (buffer_cursor b).toNat ∧
    (buffer_move_gap b).cap = b.cap ∧
    buffer_valid (buffer_move_gap b) := by
  obtain ⟨h1, h2, h3, h4⟩ := hv
  unfold buffer_move_gap
  split_ifs with hz hneg
  · exact ⟨rfl, rfl, by simp [buffer_cursor, hz], rfl, h1, h2, h3, h4⟩
  · set k := (-b.relpos).toNat with hk
    have hkr : b.relpos = -(k : Int) := by omega
    have hkg : k ≤ b.gap := by omega
    have hkp : k ≤ b.post := le_trans hkg h1
    obtain ⟨g2, hg2⟩ : ∃ g2, b.gap = g2 + k := ⟨b.gap - k, by omega⟩
    obtain ⟨p2, hp2⟩ : ∃ p2, b.post = p2 + k := ⟨b.post - k, by omega⟩
    refine ⟨?_, ?_, ?_, rfl, ?_⟩
    · simp only [buffer_contents, buffer_pre, buffer_postrun]
      rw [hg2, hp2]
      simp only [Nat.add_sub_cancel]
      exact memmove_left_contents b.mem b.cap g2 p2 k (by omega) (by omega)
    · simp only [buffer_cursor]
      omega
    · simp only [buffer_cursor]
      omega
    · simp only [buffer_valid]
      refine ⟨by omega, by omega, by omega, by omega⟩
  · have hpos : 0 < b.relpos := by omega
    set k := b.relpos.toNat with hk
    have hkr : b.relpos = (k : Int) := by omega
    have hkc : b.post + k ≤ b.cap := by omega
    refine ⟨?_, ?_, ?_, rfl, ?_⟩
    · simp only [buffer_contents, buffer_pre, buffer_postrun]
      exact memmove_right_contents b.mem b.cap b.gap b.post k h1 hkc
    · simp only [buffer_cursor]
      omega
    · simp only [buffer_cursor]
      omega
    · simp only [buffer_valid]
      refine ⟨by omega, by omega, by omega, by omega⟩

/-- Helper: the pre-run has length `gap`. -/
theorem buffer_pre_length (b : Buffer) : (buffer_pre b).length = b.gap := by
  simp [buffer_pre]

/-- Helper: the first `gap` bytes of the stored line are the pre-run. -/
theorem contents_take_gap (b : Buffer) :
    (buffer_contents b).take b.gap = buffer_pre b := by
  rw [buffer_contents, List.take_left' (buffer_pre_length b)]

/-- Helper: the bytes of the stored line from `gap` on are the post-run. -/
theorem contents_drop_gap (b : Buffer) :
    (buffer_contents b).drop b.gap = buffer_postrun b := by
  rw [buffer_contents, List.drop_left' (buffer_pre_length b)]

/-- Helper: when `buffer_insertch` reports failure, the buffer it leaves
behind is exactly `buffer_move_gap` of the input (the only mutation before
the failed `realloc`, lines 91-98). -/
theorem insert_fail_eq_move_gap (b : Buffer) (ch : Nat)
    (hf : (buffer_insertch false b ch).1 = false) :
    (buffer_insertch false b ch).2 = buffer_move_gap b := by
  unfold buffer_insertch at hf ⊢
  by_cases h : (buffer_move_gap b).gap = (buffer_move_gap b).post
  · simp [h]
  · simp [h] at hf

/-- C1: the concatenation invariant fails on the code.  Applying the
non-submit edits `[insert a, insert b, move-left, move-to-start, insert x]`
to an initially empty buffer, the buffer's `pre ++ post` is the line
`"axb"`, while the plain string model of the same logical edits gives
`"xab"` (with the cursor at 1): the Ctrl-A case assigns
`start - gap - relpos`, which leaves the effective cursor at 1 instead
of 0, so the subsequent insert lands at the wrong place. -/
theorem c1_concat_invariant_fails :
    buffer_contents (run_edits (buffer_init junk0 BREAD_INITIAL_SIZE) ops_c1) = [97, 120, 98] ∧
    spec_run ⟨[], 0⟩ ops_c1 = ⟨[120, 97, 98], 1⟩ ∧
    buffer_contents (run_edits (buffer_init junk0 BREAD_INITIAL_SIZE) ops_c1) ≠
      (spec_run ⟨[], 0⟩ ops_c1).line := by
  refine ⟨by decide, by decide, by decide⟩

/-- C2: the restore-on-every-exit-path invariant fails on the code.  In a
session where raw mode is acquired (`setupOk = true`) and the `malloc`
inside `buffer_init` then fails, `bread_line` returns `NULL` having called
`restore_terminal` zero times, not once (source lines 219-221 return
without restoring; the same happens on the insertion-failure path at
lines 263-266 and the result-`malloc`-failure path at lines 290-293). -/
theorem c2_restore_skipped_on_init_failure :
    oracle_c2.setupOk = true ∧ bread_line oracle_c2 = (.fail, 0) := by
  refine ⟨rfl, by decide⟩

/-- C3: `move_to_start` fails on states with a nonzero pending offset.
After typing `a`, `b`, pressing Ctrl-B (pending offset `-1`) and then
Ctrl-A, the effective cursor is 1, not 0: line 245 assigns
`relpos = start - gap - relpos`, i.e. the delta to position 0 rather than
the offset placing the cursor there. -/
theorem c3_move_to_start_wrong_with_pending :
    buffer_cursor (run_edits (buffer_init junk0 BREAD_INITIAL_SIZE) ops_c3) = 1 := by
  decide

/-- C4: the cursor-bounds invariant fails after delete-all.  After typing
`a`, `b`, pressing Ctrl-B and then Ctrl-U, the line is empty
(`len(pre)+len(post) = 0`) but the effective cursor offset is `-1`,
outside `[0, 0]`: the Ctrl-U case (lines 255-256) resets `gap` and `post`
but leaves the stale pending offset `relpos = -1` in place. -/
theorem c4_cursor_out_of_bounds_after_delete_all :
    buffer_cursor (run_edits (buffer_init junk0 BREAD_INITIAL_SIZE) ops_c4) = -1 ∧
    buffer_textlen (run_edits (buffer_init junk0 BREAD_INITIAL_SIZE) ops_c4) = 0 := by
  refine ⟨by decide, by decide⟩

/-- C5: growth does not preserve content when the post-run is non-empty.
Filling a capacity-2 buffer with `ab`, moving the cursor left once and
inserting `x` (with `realloc` succeeding) should give `axb`; instead the
growth path (line 102) sets `post = newbuf + newsize + (end - post)`,
past the new `end` (`post = 5 > cap = 4`), and never moves the post-run
bytes, so the byte `b` is overwritten by the insert and lost: the stored
line comes out as `ax`, and in C the `size_t` length `end - post` of the
post-run underflows. -/
theorem c5_growth_loses_post_run :
    buf_c5.cap = 4 ∧ buf_c5.post = 5 ∧ buf_c5.cap < buf_c5.post ∧
    buffer_contents buf_c5 = [97, 120] ∧ buffer_contents buf_c5 ≠ [97, 120, 98] := by
  refine ⟨by decide, by decide, by decide, by decide, by decide⟩

/-- C6: a failed growth reallocation leaves the buffer logically
unchanged: the stored line, the effective cursor, validity, and the text
on each side of the effective cursor are the same as before the failed
insert (the only mutation before the failed `realloc` is
`buffer_move_gap`, which merely materializes the pending offset). -/
theorem c6_insert_fail_preserves_state (b : Buffer) (ch : Nat) (hv : buffer_valid b)
    (hf : (buffer_insertch false b ch).1 = false) :
    buffer_contents (buffer_insertch false b ch).2 = buffer_contents b ∧
    buffer_cursor (buffer_insertch false b ch).2 = buffer_cursor b ∧
    buffer_valid (buffer_insertch false b ch).2 ∧
    buffer_pre (buffer_insertch false b ch).2 = (buffer_contents b).take (buffer_cursor b).toNat ∧
    buffer_postrun (buffer_insertch false b ch).2 =
      (buffer_contents b).drop (buffer_cursor b).toNat := by
  rw [insert_fail_eq_move_gap b ch hf]
  obtain ⟨hc, hcur, hgap, hcap, hval⟩ := move_gap_spec b hv
  refine ⟨hc, hcur, hval, ?_, ?_⟩
  · rw [← contents_take_gap (buffer_move_gap b), hc, hgap]
  · rw [← contents_drop_gap (buffer_move_gap b), hc, hgap]

/-- C6 witness: a concrete failing insert (full capacity-1 buffer, failing
`realloc`) at which the hypotheses of `c6_insert_fail_preserves_state`
hold and its conclusion evaluates. -/
theorem c6_insert_fail_witness :
    buffer_valid buf_c6 ∧ (buffer_insertch false buf_c6 97).1 = false ∧
    buffer_contents (buffer_insertch false buf_c6 97).2 = buffer_contents buf_c6 := by
  refine ⟨by decide, by decide, (c6_insert_fail_preserves_state buf_c6 97 (by decide) (by decide)).1⟩

/-- C7 counterexample: a 1-byte read of the lone `ESC` byte — an
incomplete escape sequence — makes `getkey` return the byte 27 itself,
not the no-event sentinel, and the edit loop then inserts that byte: the
submitted line is `[27]`, refuting the claim that no byte of a partial
escape is inserted. -/
theorem c7_partial_escape_counterexample :
    getkey junk0 (some [27]) = 27 ∧ getkey junk0 (some [27]) ≠ KEY_NOKEY ∧
    bread_line oracle_c7 = (.line [27], 1) := by
  refine ⟨by decide, by decide, by decide⟩

/-- C7 amended: when a single read yields fewer than 3 bytes (an
incomplete escape sequence included), `getkey` returns the first byte read
as a literal key, so for a partial escape the `ESC` byte is inserted into
the line (as `bread_line oracle_c7` shows); the no-event result arises
only from a read error or a complete `ESC [` sequence with an unrecognized
final byte. -/
theorem c7_short_read_returns_first_byte :
    (∀ (junk : Nat → Nat) (b : Nat) (rest : List Nat),
      (b :: rest).length < 3 → getkey junk (some (b :: rest)) = b) ∧
    bread_line oracle_c7 = (.line [27], 1) := by
  constructor
  · intro junk b rest h
    dsimp only [getkey]
    rw [if_pos h]
    rfl
  · decide

/-- C7 witness: the amended theorem applied to the concrete 2-byte partial
escape `ESC [`. -/
theorem c7_short_read_witness :
    ([27, 91] : List Nat).length < 3 ∧ getkey junk0 (some [27, 91]) = 27 :=
  ⟨by decide, c7_short_read_returns_first_byte.1 junk0 27 [91] (by decide)⟩

/-- C8: the code masks restore failures, contrary to the claim and the
spec.  In a session where the final `tcsetattr` of `restore_terminal`
fails, `bread_line` still returns the edited line (`"hi"`) instead of an
absent result: line 300 discards the boolean result of
`restore_terminal`, and in general the outcome of `bread_line` is
independent of whether the restoring write succeeds. -/
theorem c8_restore_failure_masked :
    oracle_c8.restoreOk = false ∧ bread_line oracle_c8 = (.line [104, 105], 1) ∧
    (∀ (o : Oracle) (rOk : Bool), bread_line { o with restoreOk := rOk } = bread_line o) := by
  refine ⟨rfl, by decide, ?_⟩
  intro o rOk
  cases o
  rfl

/-- C9: resolving the pending offset is idempotent: after one
`buffer_move_gap` the pending offset is 0, and a second `buffer_move_gap`
returns its input unchanged. -/
theorem c9_move_gap_idempotent (b : Buffer) :
    (buffer_move_gap b).relpos = 0 ∧
    buffer_move_gap (buffer_move_gap b) = buffer_move_gap b :=
  ⟨move_gap_relpos b, move_gap_eq_of_relpos_zero _ (move_gap_relpos b)⟩

/-- C10: when `read` returns exactly 0 bytes (end of input), `getkey`
falls into the fewer-than-3-bytes branch and returns `c[0]`, the first
cell of its local array, which no read has written: the result is the
indeterminate value `junk 0`, and since any `char` cell promotes to an
`int` below 257 it is never the no-event sentinel, so end of input is
treated as an ordinary key rather than pausing the loop. -/
theorem c10_eof_returns_uninitialized (junk : Nat → Nat) (h : junk 0 < 256) :
    getkey junk (some []) = junk 0 ∧ getkey junk (some []) ≠ KEY_NOKEY := by
  constructor
  · rfl
  · show junk 0 ≠ KEY_NOKEY
    unfold KEY_NOKEY
    omega

/-- C10 witness: the theorem applied to a concrete indeterminate content. -/
theorem c10_eof_witness :
    junk0 0 < 256 ∧ getkey junk0 (some []) = junk0 0 ∧ getkey junk0 (some []) ≠ KEY_NOKEY :=
  ⟨by decide, c10_eof_returns_uninitialized junk0 (by decide)⟩
